import Mathlib

/-!
Shallow embedding of the Brady crime-gun ETL classification core:
`src/brady/etl/process_crime_gun_db.py`, `src/brady/etl/court_lookup.py`,
`src/brady/etl/classify_location.py` and `src/brady/etl/unified.py`.
Python strings are modelled as Lean `String`; nullable values as `Option`.
Each regular expression from the source is transcribed as an explicit
matcher over character lists with Python `re.search` leftmost semantics.
-/

/-- Python `str.strip` whitespace set (ASCII): space, tab, LF, CR, VT, FF. -/
def isPySpace (c : Char) : Bool :=
  c == ' ' || c == '\t' || c == '\n' || c == '\r' || c == '\x0b' || c == '\x0c'

/-- Character class `[A-Z]`. -/
def isUpperAZ (c : Char) : Bool := 'A' ≤ c && c ≤ 'Z'

/-- Character class `[A-Za-z]`. -/
def isAlphaAZ (c : Char) : Bool := ('A' ≤ c && c ≤ 'Z') || ('a' ≤ c && c ≤ 'z')

/-- Regex word character `\w` = `[A-Za-z0-9_]` (ASCII). -/
def isWordChar (c : Char) : Bool := isAlphaAZ c || c.isDigit || c == '_'

/-- `needle` is a prefix of `hay` (character lists). -/
def startsL : List Char → List Char → Bool
  | [], _ => true
  | _ :: _, [] => false
  | a :: as, b :: bs => a == b && startsL as bs

/-- `needle` occurs as a contiguous substring of `hay` (Python `in`). -/
def subL (needle : List Char) : List Char → Bool
  | [] => startsL needle []
  | c :: rest => startsL needle (c :: rest) || subL needle rest

/-- Python `needle in hay` on strings (case-sensitive substring test). -/
def subOfS (needle hay : String) : Bool := subL needle.toList hay.toList

/-- Python `str.strip` on a character list. -/
def pyStripL (l : List Char) : List Char :=
  ((l.dropWhile isPySpace).reverse.dropWhile isPySpace).reverse

/-- Python `str.strip`. -/
def pyStripS (s : String) : String := String.mk (pyStripL s.toList)

/-- Python `str.lower` (ASCII inputs). -/
def lowerStr (s : String) : String := String.mk (s.toList.map Char.toLower)

/-- Python `str.upper` (ASCII inputs). -/
def upperStr (s : String) : String := String.mk (s.toList.map Char.toUpper)

/-- Numeric value of a run of decimal digits (Python `int`). -/
def digitsToNat (l : List Char) : Nat :=
  l.foldl (fun acc c => acc * 10 + (c.toNat - '0'.toNat)) 0

/-!
## `process_crime_gun_db.py` — pattern library

`COURT_STATE_MAP`: federal court abbreviation → state code, in the
declaration order of the Python dict (dicts preserve insertion order).
-/

def COURT_STATE_MAP : List (String × String) :=
  [ ("Alaska", "AK"),
    ("Ariz.", "AZ"),
    ("Cal.", "CA"),
    ("Colo.", "CO"),
    ("Conn.", "CT"),
    ("Del.", "DE"),
    ("Fla.", "FL"),
    ("Ga.", "GA"),
    ("Ill.", "IL"),
    ("Ind.", "IN"),
    ("Kan.", "KS"),
    ("Ky.", "KY"),
    ("La.", "LA"),
    ("Mass.", "MA"),
    ("Md.", "MD"),
    ("Mich.", "MI"),
    ("Minn.", "MN"),
    ("Mo.", "MO"),
    ("N.J.", "NJ"),
    ("N.Y.", "NY"),
    ("N.C.", "NC"),
    ("Ohio", "OH"),
    ("Okla.", "OK"),
    ("Or.", "OR"),
    ("Pa.", "PA"),
    ("Tenn.", "TN"),
    ("Tex.", "TX"),
    ("Va.", "VA"),
    ("Wash.", "WA"),
    ("W.Va.", "WV"),
    ("Wis.", "WI") ]

/-- The loop body of `parse_court_state`: first entry whose abbreviation is a
(case-sensitive) substring of the text wins. -/
def courtLoop : List (String × String) → String → Option String
  | [], _ => none
  | (abbrev_, st) :: rest, t =>
    if subOfS abbrev_ t then some st else courtLoop rest t

/-- `parse_court_state(text)`: extract state code from a federal court
reference. `None`/empty input yields no match. -/
def parse_court_state : Option String → Option String
  | none => none
  | some s => if s = "" then none else courtLoop COURT_STATE_MAP s

/-!
`_RECOVERY_PATTERN = (?:\d+\.\s*)?([A-Za-z][A-Za-z\s\.\-']+?),\s*([A-Z]{2})(?:\s|$|\))`
transcribed with `re.search` leftmost-match semantics and a lazy city group.
-/

/-- City-name character class `[A-Za-z\s\.\-']`. -/
def isCityChar (c : Char) : Bool :=
  isAlphaAZ c || isPySpace c || c == '.' || c == '-' || c == Char.ofNat 39

/-- Attempt the tail `,\s*([A-Z]{2})(?:\s|$|\))` of the recovery pattern,
returning the two-letter state on success. -/
def recClose (rest : List Char) : Option String :=
  match rest with
  | ',' :: r1 =>
    match r1.dropWhile isPySpace with
    | a :: b :: r3 =>
      if isUpperAZ a && isUpperAZ b then
        match r3 with
        | [] => some (String.mk [a, b])
        | c :: _ => if isPySpace c || c == ')' then some (String.mk [a, b]) else none
      else none
    | _ => none
  | _ => none

/-- Lazy expansion of the city group `[A-Za-z\s\.\-']+?`: after each consumed
character, first try to close the match, then consume one more. The city
group is finally stripped, as in `match.group(1).strip()`. -/
def cityLoop (acc : List Char) : List Char → Option (String × String)
  | [] => none
  | c :: rs =>
    if isCityChar c then
      match recClose rs with
      | some st => some (pyStripS (String.mk (acc ++ [c])), st)
      | none => cityLoop (acc ++ [c]) rs
    else none

/-- Match `([A-Za-z][A-Za-z\s\.\-']+?),\s*([A-Z]{2})(?:\s|$|\))` at this
position. -/
def cityStart : List Char → Option (String × String)
  | c :: rs => if isAlphaAZ c then cityLoop [c] rs else none
  | [] => none

/-- Match the full recovery pattern at this position, with the optional
greedy list-numeral `(?:\d+\.\s*)?`. -/
def recAt (rest : List Char) : Option (String × String) :=
  match rest with
  | c :: _ =>
    if c.isDigit then
      let ds := rest.takeWhile Char.isDigit
      match rest.drop ds.length with
      | '.' :: r2 =>
        match cityStart (r2.dropWhile isPySpace) with
        | some res => some res
        | none => cityStart rest
      | _ => cityStart rest
    else cityStart rest
  | [] => none

/-- `re.search` scan: try each start position left to right. -/
def recSearch : List Char → Option (String × String)
  | [] => none
  | c :: rest =>
    match recAt (c :: rest) with
    | some r => some r
    | none => recSearch rest

/-- `parse_recovery_location(text)`: extract the first `(city, state)` from
recovery location text. -/
def parse_recovery_location : Option String → Option (String × String)
  | none => none
  | some s => if s = "" then none else recSearch s.toList

/-!
`_FLOW_PATTERN = ([A-Z]{2})\s*(?:--?>|==?>)\s*(SWB|[A-Z]{2})`, searched over
the upper-cased text.
-/

/-- Match the arrow alternatives `-->`, `->`, `==>`, `=>` (longer dash/equals
run preferred, as the greedy `-?`/`=?` does). -/
def arrowAfter (r : List Char) : Option (List Char) :=
  if startsL ['-', '-', '>'] r then some (r.drop 3)
  else if startsL ['-', '>'] r then some (r.drop 2)
  else if startsL ['=', '=', '>'] r then some (r.drop 3)
  else if startsL ['=', '>'] r then some (r.drop 2)
  else none

/-- Match the flow pattern at this position: two capitals, optional space,
arrow, optional space, then `SWB` (tried first) or two capitals. -/
def flowAt (rest : List Char) : Option (String × String) :=
  match rest with
  | a :: b :: r1 =>
    if isUpperAZ a && isUpperAZ b then
      match arrowAfter (r1.dropWhile isPySpace) with
      | some r3 =>
        let r4 := r3.dropWhile isPySpace
        if startsL ['S', 'W', 'B'] r4 then some (String.mk [a, b], "SWB")
        else
          match r4 with
          | c :: d :: _ =>
            if isUpperAZ c && isUpperAZ d then some (String.mk [a, b], String.mk [c, d])
            else none
          | _ => none
      | none => none
    else none
  | _ => none

/-- `re.search` scan for the flow pattern. -/
def flowSearch : List Char → Option (String × String)
  | [] => none
  | c :: rest =>
    match flowAt (c :: rest) with
    | some r => some r
    | none => flowSearch rest

/-- `parse_trafficking_flow(text)`: extract `(origin, destination)` from
trafficking flow text, searching the upper-cased string. -/
def parse_trafficking_flow : Option String → Option (String × String)
  | none => none
  | some s => if s = "" then none else flowSearch (upperStr s).toList

/-- `convert_boolean(value)`: Yes/No/True/False to boolean, unknown `None`. -/
def convert_boolean : Option String → Option Bool
  | none => none
  | some s =>
    let v := lowerStr (pyStripS s)
    if v = "yes" || v = "true" || v = "1" then some true
    else if v = "no" || v = "false" || v = "0" then some false
    else none

/-- Scan for `(\d+)\s*months?`: at each position starting a digit, take the
maximal digit run, skip whitespace, and require the literal `month`. -/
def monthsSearch : List Char → Option Nat
  | [] => none
  | c :: rest =>
    if c.isDigit then
      let ds := (c :: rest).takeWhile Char.isDigit
      let r1 := ((c :: rest).drop ds.length).dropWhile isPySpace
      if startsL ['m', 'o', 'n', 't', 'h'] r1 then some (digitsToNat ds)
      else monthsSearch rest
    else monthsSearch rest

/-- Scan for `(\d+)\s*(?:days?)?`: group 1 is the first maximal digit run. -/
def firstNumSearch : List Char → Option Nat
  | [] => none
  | c :: rest =>
    if c.isDigit then some (digitsToNat ((c :: rest).takeWhile Char.isDigit))
    else firstNumSearch rest

/-- `parse_time_to_crime(text)`: months are checked first (scaled by 30),
then a bare number of days. -/
def parse_time_to_crime : Option String → Option Nat
  | none => none
  | some s =>
    if s = "" then none
    else
      let t := pyStripS (lowerStr s)
      match monthsSearch t.toList with
      | some n => some (n * 30)
      | none => firstNumSearch t.toList

/-!
## `process_crime_gun_db.py` — row transformation

A pandas row is modelled as an association list from column name to an
optional string value (`none` models NaN/None cells).
-/

abbrev Row : Type := List (String × Option String)

/-- `row.get(col)`: value of a column, `none` when absent or NaN. -/
def row_get (r : Row) (c : String) : Option String :=
  match List.find? (fun p => p.1 == c) r with
  | some p => p.2
  | none => none

/-- `col in row.index`. -/
def has_col (r : Row) (c : String) : Bool :=
  (List.find? (fun p => p.1 == c) r).isSome

/-- The loop over `row.index` looking for a column whose name contains
`"Case subject"`, returning that column's value. -/
def case_subject_value (r : Row) : Option String :=
  match List.find? (fun p => subOfS "Case subject" p.1) r with
  | some p => p.2
  | none => none

/-- Trafficking flow parsed from the case-subject column (as `transform_row`
does with `parse_trafficking_flow(case_subject)`). -/
def case_subject_flow (r : Row) : Option (String × String) :=
  parse_trafficking_flow (case_subject_value r)

/-- Column name of the recovery-location field. -/
def recoveryCol : String := "Location(s) of recovery(ies)"

/-- Priorities 4 and 5 of `get_jurisdiction`: sheet default, then dealer
state, then unknown. -/
def sheet_default (r : Row) (sheet_name : String) : Option String × Option String × String :=
  if subOfS "Philadelphia" sheet_name then (some "PA", some "Philadelphia", "SHEET_DEFAULT")
  else if subOfS "Rochester" sheet_name then (some "NY", some "Rochester", "SHEET_DEFAULT")
  else
    match row_get r "State" with
    | some s => if s = "" then (none, none, "UNKNOWN")
                else (some (upperStr (pyStripS s)), none, "DEALER_STATE")
    | none => (none, none, "UNKNOWN")

/-- `get_jurisdiction(row, sheet_name)`: `(state, city, method)` via the
priority chain recovery → court → trafficking destination → sheet default →
dealer state. -/
def get_jurisdiction (r : Row) (sheet_name : String) : Option String × Option String × String :=
  match (if has_col r recoveryCol then parse_recovery_location (row_get r recoveryCol) else none) with
  | some cs => (some cs.2, some cs.1, "RECOVERY")
  | none =>
    match (if has_col r "Case" then parse_court_state (row_get r "Case") else none) with
    | some st => (some st, none, "COURT")
    | none =>
      match case_subject_flow r with
      | some f =>
        if f.2 ≠ "SWB" then (some f.2, none, "TRAFFICKING")
        else sheet_default r sheet_name
      | none => sheet_default r sheet_name

/-- The unified-schema record built by `transform_row`. -/
structure CrimeGunRecord where
  source_dataset : String
  source_sheet : String
  source_row : Nat
  jurisdiction_state : Option String
  jurisdiction_city : Option String
  jurisdiction_method : String
  dealer_name : Option String
  dealer_city : Option String
  dealer_state : Option String
  dealer_ffl : Option String
  in_dl2_program : Option Bool
  is_top_trace_ffl : Option Bool
  is_revoked : Option Bool
  is_charged_or_sued : Option Bool
  case_name : Option String
  trafficking_origin : Option String
  trafficking_destination : Option String
  is_southwest_border : Bool
  time_to_crime : Option Nat
  facts_narrative : Option String
  deriving DecidableEq

/-- The loop over `row.index` looking for the time-to-crime column. -/
def time_to_crime_value (r : Row) : Option String :=
  match List.find? (fun p => subOfS "Time-to-recovery" p.1
      || subOfS "time-to-crime" (lowerStr p.1)) r with
  | some p => p.2
  | none => none

/-- `transform_row(row, sheet_name, source_row)`: `None` for garbage rows
(missing/`?`/empty FFL), otherwise the unified record. -/
def transform_row (r : Row) (sheet_name : String) (source_row : Nat) : Option CrimeGunRecord :=
  match row_get r "FFL" with
  | none => none
  | some ffl =>
    if pyStripS ffl = "?" || pyStripS ffl = "" then none
    else
      let j := get_jurisdiction r sheet_name
      let flow := case_subject_flow r
      some
        { source_dataset := "CRIME_GUN_DB"
          source_sheet := sheet_name
          source_row := source_row
          jurisdiction_state := j.1
          jurisdiction_city := j.2.1
          jurisdiction_method := j.2.2
          dealer_name := if ffl = "" then none else some (pyStripS ffl)
          dealer_city := row_get r "City"
          dealer_state := row_get r "State"
          dealer_ffl := row_get r "license number"
          in_dl2_program := convert_boolean (row_get r "2022/23/24 DL2 FFL?")
          is_top_trace_ffl := convert_boolean (row_get r "Top trace FFL?")
          is_revoked := convert_boolean (row_get r "Revoked FFL?")
          is_charged_or_sued := convert_boolean (row_get r "FFL charged/sued?")
          case_name := row_get r "Case"
          trafficking_origin := flow.map Prod.fst
          trafficking_destination := flow.map Prod.snd
          is_southwest_border := match flow with
            | some f => f.2 == "SWB"
            | none => false
          time_to_crime := parse_time_to_crime (time_to_crime_value r)
          facts_narrative := row_get r "Facts" }

/-!
## `unified.py` — `is_yes`
-/

/-- `is_yes(value)`: whether the value represents a yes response. -/
def is_yes : Option String → Bool
  | none => false
  | some s =>
    let v := pyStripS (lowerStr s)
    v = "yes" || v = "true" || v = "1" || v = "y" || v = "x"

/-!
## `court_lookup.py`
-/

/-- Delaware court lookup table, `XX` case-number prefix → court name. -/
def COURT_LOOKUP : List (String × String) :=
  [ ("10", "Delaware Supreme Court"),
    ("19", "Delaware Family Court"),
    ("30", "Delaware Superior Court"),
    ("31", "Court of Common Pleas") ]

/-- Python `dict.get`: first entry with the given key. -/
def tableGet (t : List (String × String)) (k : String) : Option String :=
  (List.find? (fun p => p.1 == k) t).map Prod.snd

/-- Whether a string matches `^(\d{2})-` (two digits then a dash). -/
def hasCasePrefixPat (s : String) : Bool :=
  match s.toList with
  | d1 :: d2 :: '-' :: _ => d1.isDigit && d2.isDigit
  | _ => false

/-- `lookup_court(case_number)`: court name from the 2-digit case-number
prefix, `None` on null/empty input, no `^\d{2}-` match, or unknown prefix. -/
def lookup_court : Option String → Option String
  | none => none
  | some s0 =>
    if s0 = "" then none
    else if pyStripS s0 = "" then none
    else
      match (pyStripS s0).toList with
      | d1 :: d2 :: '-' :: _ =>
        if d1.isDigit && d2.isDigit then tableGet COURT_LOOKUP (String.mk [d1, d2])
        else none
      | _ => none

/-- Match `^(\d{2})-(\d{2})-(\d+)$`, returning the three digit groups. -/
def parseCaseNum (l : List Char) : Option (List Char × List Char × List Char) :=
  match l with
  | d1 :: d2 :: '-' :: d3 :: d4 :: '-' :: rest =>
    if d1.isDigit && d2.isDigit && d3.isDigit && d4.isDigit
        && rest.all Char.isDigit && !rest.isEmpty then
      some ([d1, d2], [d3, d4], rest)
    else none
  | _ => none

/-- `str.zfill(6)` on a digit group. -/
def zfill6 (l : List Char) : List Char :=
  if l.length < 6 then List.replicate (6 - l.length) '0' ++ l else l

/-- Reassemble `XX-YY-NNNNNN` with the sequence padded to six digits. -/
def mkNormCase (g : List Char × List Char × List Char) : String :=
  String.mk (g.1 ++ '-' :: g.2.1 ++ '-' :: zfill6 g.2.2)

/-- `normalize_case_number(case_number)`: strip, match `XX-YY-N+` (retrying
with all whitespace removed), pad the sequence to 6 digits. -/
def normalize_case_number : Option String → Option String
  | none => none
  | some s0 =>
    if s0 = "" then none
    else if pyStripS s0 = "" then none
    else
      match parseCaseNum (pyStripS s0).toList with
      | some g => some (mkNormCase g)
      | none =>
        match parseCaseNum ((pyStripS s0).toList.filter (fun c => !isPySpace c)) with
        | some g => some (mkNormCase g)
        | none => none

/-!
## `classify_location.py`

The narrative regex patterns of `WILMINGTON_STREET_TO_ZIP` are transcribed
as scanners with explicit `\b` word boundaries and `\s+` whitespace runs.
-/

/-- True when the next character (if any) is not a word character, i.e. a
closing `\b` holds. -/
def wordEndOk (rest : List Char) : Bool :=
  match rest with
  | [] => true
  | c :: _ => !isWordChar c

/-- Whether the character before the current position is a word character
(`none` at the start of the text). -/
def isWordOpt (prev : Option Char) : Bool :=
  match prev with
  | none => false
  | some c => isWordChar c

/-- Consume a literal, or fail. -/
def afterLit (w : List Char) (rest : List Char) : Option (List Char) :=
  if startsL w rest then some (rest.drop w.length) else none

/-- Consume `\s+` (at least one whitespace character, then greedily all). -/
def afterWs1 (rest : List Char) : Option (List Char) :=
  match rest with
  | c :: rs => if isPySpace c then some (rs.dropWhile isPySpace) else none
  | [] => none

/-- Scan every position of the text (tracking the previous character for
word boundaries) for a position-matcher `f`. -/
def scanPos (f : Option Char → List Char → Bool) : Option Char → List Char → Bool
  | prev, [] => f prev []
  | prev, c :: rest => f prev (c :: rest) || scanPos f (some c) rest

/-- Matcher for `\bWORD\b`. -/
def patWordWB (w : String) (text : List Char) : Bool :=
  scanPos (fun prev rest =>
    !isWordOpt prev &&
      match afterLit w.toList rest with
      | some r => wordEndOk r
      | none => false) none text

/-- Matcher for `\bW1\s+W2\b`. -/
def patTwoWordsWB (w1 w2 : String) (text : List Char) : Bool :=
  scanPos (fun prev rest =>
    !isWordOpt prev &&
      match afterLit w1.toList rest with
      | some r1 =>
        match afterWs1 r1 with
        | some r2 =>
          match afterLit w2.toList r2 with
          | some r3 => wordEndOk r3
          | none => false
        | none => false
      | none => false) none text

/-- Matcher for `\b[1-9]00\s+block\s+of\s+(market|king|walnut|french)`. -/
def patBlockOf (text : List Char) : Bool :=
  scanPos (fun prev rest =>
    !isWordOpt prev &&
      match rest with
      | c :: r0 =>
        ('1' ≤ c && c ≤ '9') &&
          match afterLit ['0', '0'] r0 with
          | some r1 =>
            match afterWs1 r1 with
            | some r2 =>
              match afterLit ['b', 'l', 'o', 'c', 'k'] r2 with
              | some r3 =>
                match afterWs1 r3 with
                | some r4 =>
                  match afterLit ['o', 'f'] r4 with
                  | some r5 =>
                    match afterWs1 r5 with
                    | some r6 =>
                      startsL ['m', 'a', 'r', 'k', 'e', 't'] r6
                        || startsL ['k', 'i', 'n', 'g'] r6
                        || startsL ['w', 'a', 'l', 'n', 'u', 't'] r6
                        || startsL ['f', 'r', 'e', 'n', 'c', 'h'] r6
                    | none => false
                  | none => false
                | none => false
              | none => false
            | none => false
          | none => false
      | [] => false) none text

/-- One ZIP entry of `WILMINGTON_STREET_TO_ZIP`: street substrings and
narrative regex patterns, the latter carried with their source text (the
source text is interpolated into the method string). -/
structure ZipRules where
  streets : List String
  pats : List (String × (List Char → Bool))

def rules19801 : ZipRules :=
  { streets :=
      [ "market st", "king st", "walnut st", "french st", "shipley st",
        "orange st", "tatnall st", "west st", "adams st",
        "w. 2nd", "w. 3rd", "w. 4th", "w. 5th", "w. 6th", "w. 7th",
        "w. 8th", "w. 9th", "w 2nd", "w 3rd", "w 4th", "w 5th", "w 6th",
        "w 7th", "w 8th", "w 9th", "west 2nd", "west 3rd", "west 4th",
        "west 5th", "west 6th", "west 7th", "west 8th", "west 9th",
        "s. walnut", "s walnut", "south walnut",
        "s. market", "s market", "south market",
        "rodney square", "wilmington train", "amtrak" ]
    pats :=
      [ ("\\b[1-9]00\\s+block\\s+of\\s+(market|king|walnut|french)", patBlockOf),
        ("\\bdowntown\\b", patWordWB "downtown") ] }

def rules19802 : ZipRules :=
  { streets :=
      [ "e. 2nd", "e. 3rd", "e. 4th", "e. 5th", "e. 6th", "e. 7th",
        "e. 8th", "e. 9th", "e. 10th", "e. 11th", "e. 12th", "e. 13th",
        "e. 14th", "e. 15th", "e. 16th", "e. 17th", "e. 18th",
        "e 2nd", "e 3rd", "e 4th", "e 5th", "e 6th", "e 7th",
        "e 8th", "e 9th", "e 10th", "e 11th", "e 12th", "e 13th",
        "east 2nd", "east 3rd", "east 4th", "east 5th", "east 6th",
        "east 7th", "east 8th", "east 9th", "east 10th", "east 11th",
        "east 12th", "east 13th", "east 14th", "east 15th", "east 16th",
        "n. pine", "n pine", "north pine", "pine st",
        "n. van buren", "n van buren", "van buren",
        "n. madison", "n madison", "madison st",
        "n. jackson", "n jackson", "jackson st",
        "n. monroe", "n monroe", "monroe st",
        "n. jefferson", "n jefferson",
        "n. washington", "n washington",
        "n. dupont", "n dupont", "north dupont",
        "north park", "northeast blvd", "governor printz",
        "edgemoor", "claymont",
        "riverside", "brandywine",
        "s. van buren", "s van buren", "south van buren",
        "sycamore" ]
    pats :=
      [ ("\\beast\\s+side\\b", patTwoWordsWB "east" "side"),
        ("\\bnortheast\\b", patWordWB "northeast"),
        ("\\briverside\\b", patWordWB "riverside") ] }

def rules19805 : ZipRules :=
  { streets :=
      [ "kirkwood hwy", "kirkwood highway", "prices corner",
        "greenbank", "elsmere" ]
    pats :=
      [ ("\\bprices\\s+corner\\b", patTwoWordsWB "prices" "corner"),
        ("\\bsouthwest\\b", patWordWB "southwest") ] }

def rules19806 : ZipRules :=
  { streets :=
      [ "w. 18th", "w. 19th", "w. 20th", "w. 21st", "w. 22nd",
        "w. 23rd", "w. 24th", "w. 25th", "w. 26th", "w. 27th",
        "w. 28th", "w. 29th", "w. 30th", "w. 31st", "w. 32nd",
        "w. 33rd", "w. 34th", "w. 35th", "w. 36th", "w. 37th",
        "w 18th", "w 19th", "w 20th", "w 21st", "w 22nd",
        "w 23rd", "w 24th", "w 25th", "w 26th", "w 27th",
        "w 28th", "w 29th", "w 30th", "w 31st", "w 32nd",
        "w 33rd", "w 34th", "w 35th", "w 36th", "w 37th",
        "west 18th", "west 19th", "west 20th", "west 21st",
        "delaware ave", "lovering ave", "pennsylvania ave",
        "baynard blvd", "trolley square", "wawaset",
        "highlands", "rockford park" ]
    pats :=
      [ ("\\btrolley\\s+square\\b", patTwoWordsWB "trolley" "square"),
        ("\\bhighlands\\b", patWordWB "highlands"),
        ("\\bnorthwest\\b", patWordWB "northwest") ] }

/-- `WILMINGTON_STREET_TO_ZIP` in dict declaration order. -/
def WILMINGTON_STREET_TO_ZIP : List (String × ZipRules) :=
  [ ("19801", rules19801),
    ("19802", rules19802),
    ("19805", rules19805),
    ("19806", rules19806) ]

/-- `DEFAULT_WILMINGTON_ZIP`. -/
def DEFAULT_WILMINGTON_ZIP : String := "19801"

/-- Street-substring pass for one ZIP entry. -/
def streetScan (zip_code : String) (streets : List String) (nl : String) : Option (String × String) :=
  (streets.find? (fun street => subOfS street nl)).map
    (fun street => (zip_code, "Street match: " ++ street))

/-- Regex-pattern pass for one ZIP entry. -/
def patScan (zip_code : String) (pats : List (String × (List Char → Bool))) (nl : String) :
    Option (String × String) :=
  (pats.find? (fun p => p.2 nl.toList)).map
    (fun p => (zip_code, "Pattern match: " ++ p.1))

/-- The loop of `infer_zip_from_narrative` over the ZIP table: per entry,
street names first, then regex patterns. -/
def zipScan : List (String × ZipRules) → String → Option (String × String)
  | [], _ => none
  | (z, rules) :: rest, nl =>
    match streetScan z rules.streets nl with
    | some r => some r
    | none =>
      match patScan z rules.pats nl with
      | some r => some r
      | none => zipScan rest nl

/-- `infer_zip_from_narrative(narrative, city)`: `(zip_code, method)`. -/
def infer_zip_from_narrative (narrative : Option String) (city : String) : String × String :=
  match narrative with
  | none => (DEFAULT_WILMINGTON_ZIP, "Default (no narrative or non-Wilmington)")
  | some n =>
    if n = "" || city ≠ "Wilmington" then
      (DEFAULT_WILMINGTON_ZIP, "Default (no narrative or non-Wilmington)")
    else
      match zipScan WILMINGTON_STREET_TO_ZIP (lowerStr n) with
      | some r => r
      | none => (DEFAULT_WILMINGTON_ZIP, "Default (no street match)")

/-- Input record of `classify_record`: the columns it reads. -/
structure GRecord where
  jurisdiction_city : Option String
  case_summary : Option String
  case_number : Option String
  deriving DecidableEq

/-- Output of `classify_record`. -/
structure CResult where
  state : String
  city : String
  zip_code : String
  court : String
  pd : String
  reasoning : String
  deriving DecidableEq

/-- `classify_record(record)`: classify a single DE Gunstat record's crime
location. -/
def classify_record (r : GRecord) : CResult :=
  let state := "DE"
  let state_method := "DE_GUNSTAT dataset implies Delaware"
  let city := match r.jurisdiction_city with
    | some c => if c = "" then "Wilmington" else c
    | none => "Wilmington"
  let city_method := match r.jurisdiction_city with
    | some c => if c = "" then "Default for DE_GUNSTAT" else "From jurisdiction_city"
    | none => "Default for DE_GUNSTAT"
  let zr := infer_zip_from_narrative r.case_summary city
  let cm := match lookup_court r.case_number with
    | some c =>
      (c, "Case prefix lookup (" ++
        (match r.case_number with
         | some cn => if cn = "" then "N/A" else cn.take 2
         | none => "N/A") ++ ")")
    | none => ("Delaware Superior Court", "Default for felony cases")
  let pd := city ++ " Police Department"
  let pd_method := "Derived from city (" ++ city ++ ")"
  { state := state
    city := city
    zip_code := zr.1
    court := cm.1
    pd := pd
    reasoning := "State: " ++ state_method ++ ". City: " ++ city_method ++
      ". ZIP: " ++ zr.2 ++ ". Court: " ++ cm.2 ++ ". PD: " ++ pd_method }

/-!
## `classify_location.py` — batch coordinator

One stored row pairs the location-classification column with the record
payload; `process_batch` fetches unclassified rows with `LIMIT batch_size`.
-/

structure DBRow where
  crime_location_state : Option String
  payload : GRecord
  deriving DecidableEq

/-- The `SELECT ... WHERE crime_location_state IS NULL LIMIT ?` query. -/
def fetch_unclassified (db : List DBRow) (limit : Nat) : List DBRow :=
  (db.filter (fun r => r.crime_location_state.isNone)).take limit

/-- Number of records one `process_batch(batch_size, ...)` call processes:
one per fetched row. -/
def process_batch_count (db : List DBRow) (batch_size : Nat) : Nat :=
  (fetch_unclassified db batch_size).length

/-- Default of the `batch_size` parameter of `process_batch`. -/
def process_batch_default_batch_size : Nat := 50

/-- Default of the `--batch-size` CLI argument in `main`. -/
def main_default_batch_size : Nat := 50

/-!
## Helper lemmas
-/

/-- A nonempty left operand makes a string append nonempty. -/
theorem append_ne_empty_of_left (s t : String) (h : s ≠ "") : s ++ t ≠ "" := by
  intro heq
  apply h
  have hl := congrArg String.length heq
  rw [String.length_append] at hl
  have h0 : ("" : String).length = 0 := rfl
  rw [h0] at hl
  have hs : s.length = 0 := by omega
  cases s with
  | mk data =>
    cases data with
    | nil => rfl
    | cons c cs => simp [String.length] at hs

/-- `tableGet` only returns values stored in the table. -/
theorem tableGet_mem {t : List (String × String)} {k v : String}
    (h : tableGet t k = some v) : v ∈ t.map Prod.snd := by
  induction t with
  | nil => simp [tableGet] at h
  | cons p rest ih =>
    rw [tableGet, List.find?] at h
    by_cases hc : (p.1 == k) = true
    · simp only [hc, Option.map_some'] at h
      simp [← Option.some.injEq _ _ |>.mp h]
    · simp only [Bool.not_eq_true] at hc
      rw [hc] at h
      simp only [List.map_cons, List.mem_cons]
      exact Or.inr (ih h)

/-- `lookup_court` only returns court names from `COURT_LOOKUP`. -/
theorem lookup_court_mem {cn : Option String} {v : String}
    (h : lookup_court cn = some v) : v ∈ COURT_LOOKUP.map Prod.snd := by
  cases cn with
  | none => simp [lookup_court] at h
  | some s0 =>
    rw [lookup_court] at h
    split at h
    · exact absurd h (by simp)
    · split at h
      · exact absurd h (by simp)
      · split at h
        · split at h
          · exact tableGet_mem h
          · exact absurd h (by simp)
        · exact absurd h (by simp)

/-- `zipScan` only returns ZIP codes that are keys of the table. -/
theorem zipScan_mem {tbl : List (String × ZipRules)} {nl : String}
    {r : String × String} (h : zipScan tbl nl = some r) :
    r.1 ∈ tbl.map Prod.fst := by
  induction tbl with
  | nil => simp [zipScan] at h
  | cons p rest ih =>
    obtain ⟨z, rules⟩ := p
    rw [zipScan] at h
    split at h
    · rename_i r' hs
      simp only [streetScan, Option.map_eq_some'] at hs
      obtain ⟨street, _, hr⟩ := hs
      simp only [Option.some.injEq] at h
      simp [← h, ← hr]
    · split at h
      · rename_i r' hp
        simp only [patScan, Option.map_eq_some'] at hp
        obtain ⟨pp, _, hr⟩ := hp
        simp only [Option.some.injEq] at h
        simp [← h, ← hr]
      · simp only [List.map_cons, List.mem_cons]
        exact Or.inr (ih h)

/-- The ZIP code returned by `infer_zip_from_narrative` is always a
Wilmington ZIP of the table or the default. -/
theorem infer_zip_mem (narrative : Option String) (city : String) :
    (infer_zip_from_narrative narrative city).1 ∈
      (["19801", "19802", "19805", "19806"] : List String) := by
  cases narrative with
  | none => simp [infer_zip_from_narrative, DEFAULT_WILMINGTON_ZIP]
  | some n =>
    rw [infer_zip_from_narrative]
    split
    · simp [DEFAULT_WILMINGTON_ZIP]
    · split
      · rename_i r hz
        have := zipScan_mem hz
        simpa [WILMINGTON_STREET_TO_ZIP] using this
      · simp [DEFAULT_WILMINGTON_ZIP]

/-- First-match characterization of the `parse_court_state` loop: a result
is produced exactly by the earliest table entry whose abbreviation occurs in
the text. -/
theorem courtLoop_eq_some_iff (L : List (String × String)) (t s : String) :
    courtLoop L t = some s ↔
      ∃ i, ∃ h : i < L.length,
        (L[i].2 = s ∧ subOfS (L[i]).1 t = true ∧
          ∀ j, (hj : j < L.length) → j < i → subOfS (L[j]).1 t = false) := by
  induction L with
  | nil =>
    simp [courtLoop]
  | cons p rest ih =>
    obtain ⟨a, b⟩ := p
    by_cases hc : subOfS a t = true
    · rw [courtLoop, if_pos hc]
      constructor
      · intro h
        refine ⟨0, by simp, by simpa using (Option.some.injEq _ _ |>.mp h), by simpa using hc, ?_⟩
        intro j hj hj0
        omega
      · rintro ⟨i, hi, h2, _, h4⟩
        cases i with
        | zero => simpa using congrArg some h2
        | succ n =>
          have := h4 0 (by simp) (Nat.succ_pos n)
          simp only [List.getElem_cons_zero] at this
          rw [hc] at this
          cases this
    · have hcf : subOfS a t = false := by
        cases hx : subOfS a t
        · rfl
        · exact absurd hx hc
      rw [courtLoop, if_neg hc, ih]
      constructor
      · rintro ⟨i, hi, h2, h3, h4⟩
        refine ⟨i + 1, by simpa using Nat.succ_lt_succ hi, by simpa using h2, by simpa using h3, ?_⟩
        intro j hj hji
        cases j with
        | zero => simpa using hcf
        | succ m =>
          have hm : m < rest.length := by simp at hj; omega
          have := h4 m hm (by omega)
          simpa using this
      · rintro ⟨i, hi, h2, h3, h4⟩
        cases i with
        | zero =>
          simp only [List.getElem_cons_zero] at h3
          rw [hcf] at h3
          cases h3
        | succ n =>
          have hn : n < rest.length := by simp at hi; omega
          refine ⟨n, hn, by simpa using h2, by simpa using h3, ?_⟩
          intro j hj hji
          have := h4 (j + 1) (by simp; omega) (by omega)
          simpa using this

/-!
## Claim theorems
-/

/-- C1 counterexample: on the empty record, `classify_record` does not
return the null state / sentinel reasoning the claim describes — the state
is hard-coded to `DE`, the city defaults to `Wilmington`, and the reasoning
is the structured method string, never the sentinel
`"No location indicators found in record"`. -/
theorem classify_record_empty_cx :
    (classify_record ⟨none, none, none⟩).reasoning ≠ "No location indicators found in record"
    ∧ (classify_record ⟨none, none, none⟩).state = "DE"
    ∧ (classify_record ⟨none, none, none⟩).city = "Wilmington" := by
  refine ⟨by decide, by decide, by decide⟩

/-- C1 amended: for the record with no fields at all, `classify_record`
fills every field with its dataset default — state `DE`, city `Wilmington`,
ZIP `19801`, court `Delaware Superior Court`, PD
`Wilmington Police Department` — and the reasoning is the structured
five-part method string; no "no indicators found" sentinel exists in this
pipeline. -/
theorem classify_record_empty_defaults :
    classify_record ⟨none, none, none⟩ =
      { state := "DE"
        city := "Wilmington"
        zip_code := "19801"
        court := "Delaware Superior Court"
        pd := "Wilmington Police Department"
        reasoning := "State: DE_GUNSTAT dataset implies Delaware. City: Default for DE_GUNSTAT. ZIP: Default (no narrative or non-Wilmington). Court: Default for felony cases. PD: Derived from city (Wilmington)" } := by
  rfl

/-- C2 counterexample: the batch size defaults to 50, not 20, and a
requested batch size of 21 fetches and processes 21 records — nothing
clamps it to 20. -/
theorem process_batch_no_cap_cx :
    process_batch_default_batch_size = 50
    ∧ main_default_batch_size = 50
    ∧ process_batch_count
        (List.replicate 21 ⟨none, ⟨none, none, none⟩⟩) 21 = 21 := by
  refine ⟨rfl, rfl, by decide⟩

/-- C2 amended: the batch size defaults to 50 (both the `process_batch`
parameter default and the `--batch-size` CLI default), and there is no cap:
one batch processes exactly `min batch_size (number of unclassified rows)`
records. -/
theorem process_batch_takes_min (db : List DBRow) (batch_size : Nat) :
    process_batch_count db batch_size =
      min batch_size (db.filter (fun r => r.crime_location_state.isNone)).length
    ∧ process_batch_default_batch_size = 50
    ∧ main_default_batch_size = 50 := by
  refine ⟨?_, rfl, rfl⟩
  simp [process_batch_count, fetch_unclassified, List.length_take]

/-- C4 counterexample: `convert_boolean` does not accept the `y`/`x`/`n`
tokens the claim lists — it returns `None` (unknown) for each of them. -/
theorem convert_boolean_vocab_cx :
    convert_boolean (some "Y") = none
    ∧ convert_boolean (some "x") = none
    ∧ convert_boolean (some "N") = none := by
  refine ⟨by decide, by decide, by decide⟩

/-- C4 amended: `convert_boolean` (case-insensitively, whitespace-trimmed)
maps only `yes`/`true`/`1` to true and `no`/`false`/`0` to false, with
everything else — including `Y`, `x`, `N`, the empty string and null —
mapped to unknown (`None`); the separate helper `is_yes` is the function
that accepts the wider `yes`/`y`/`true`/`1`/`x` vocabulary, but it returns
false (not unknown) for everything else. -/
theorem convert_boolean_and_is_yes_vocab :
    convert_boolean (some "Yes") = some true
    ∧ convert_boolean (some "yes") = some true
    ∧ convert_boolean (some "  Yes  ") = some true
    ∧ convert_boolean (some "TRUE") = some true
    ∧ convert_boolean (some "1") = some true
    ∧ convert_boolean (some "No") = some false
    ∧ convert_boolean (some "FALSE") = some false
    ∧ convert_boolean (some "0") = some false
    ∧ convert_boolean (some "Y") = none
    ∧ convert_boolean (some "y") = none
    ∧ convert_boolean (some "x") = none
    ∧ convert_boolean (some "X") = none
    ∧ convert_boolean (some "N") = none
    ∧ convert_boolean (some "n") = none
    ∧ convert_boolean (some "Maybe") = none
    ∧ convert_boolean (some "") = none
    ∧ convert_boolean none = none
    ∧ is_yes (some "yes") = true
    ∧ is_yes (some "Y") = true
    ∧ is_yes (some "x") = true
    ∧ is_yes (some "X") = true
    ∧ is_yes (some "1") = true
    ∧ is_yes (some "N") = false
    ∧ is_yes (some "no") = false
    ∧ is_yes (some "") = false
    ∧ is_yes none = false := by
  decide

/-- C6: the trafficking-flow matcher upper-cases the whole text, so on
narrative prose containing "Alaska --> California" it spuriously returns
`("KA", "CA")`, the `KA` taken from inside "alasKA" — exactly the behavior
the repository's own test `test_in_longer_text` pins down. -/
theorem parse_trafficking_flow_spurious_ka :
    parse_trafficking_flow
        (some "Eagle River man guilty of trafficking firearms from Alaska to California\nAlaska --> California")
      = some ("KA", "CA")
    ∧ parse_trafficking_flow (some "Alaska --> California") = some ("KA", "CA") := by
  refine ⟨by decide, by decide⟩

/-- C7: the recovery-location matcher returns the first `City, ST` pair in
document order, strips the optional list-numeral prefix, and accepts
hyphens, apostrophes and periods inside city names. -/
theorem parse_recovery_location_first_pair :
    parse_recovery_location (some "1. Woodland, CA\n2. Citrus Heights, CA")
      = some ("Woodland", "CA")
    ∧ parse_recovery_location (some "1. San Francisco, CA\n2. Daly City, CA")
      = some ("San Francisco", "CA")
    ∧ parse_recovery_location (some "Winston-Salem, NC") = some ("Winston-Salem", "NC")
    ∧ parse_recovery_location (some "St. Louis, MO") = some ("St. Louis", "MO")
    ∧ parse_recovery_location (some "O\x27Fallon, MO") = some ("O\x27Fallon", "MO") := by
  refine ⟨by decide, by decide, by decide, by decide, by decide⟩

/-- C9: every pattern-library matcher returns its no-match value on null
and on empty-string input. -/
theorem matchers_total_on_null_empty :
    parse_recovery_location none = none
    ∧ parse_recovery_location (some "") = none
    ∧ parse_court_state none = none
    ∧ parse_court_state (some "") = none
    ∧ parse_trafficking_flow none = none
    ∧ parse_trafficking_flow (some "") = none
    ∧ convert_boolean none = none
    ∧ convert_boolean (some "") = none
    ∧ lookup_court none = none
    ∧ lookup_court (some "") = none
    ∧ normalize_case_number none = none
    ∧ normalize_case_number (some "") = none := by
  decide

/-- C8: the case-number prefix matcher maps `30-23-063056` to the Delaware
Superior Court, returns nothing whenever the (stripped) text does not match
the `^\d{2}-` prefix shape, and case-number normalization pads the sequence
part to six digits. -/
theorem court_lookup_and_normalize :
    lookup_court (some "30-23-063056") = some "Delaware Superior Court"
    ∧ (∀ s : String, hasCasePrefixPat (pyStripS s) = false → lookup_court (some s) = none)
    ∧ normalize_case_number (some "30-23-1234") = some "30-23-001234" := by
  refine ⟨by decide, ?_, by decide⟩
  intro s h
  rw [lookup_court]
  split
  · rfl
  · split
    · rfl
    · rw [hasCasePrefixPat] at h
      split
      · rename_i d1 d2 rest heq
        rw [heq] at h
        simp only at h
        rw [h]
        rfl
      · rfl

/-- Witness for `court_lookup_and_normalize`: the no-prefix case applied to
the concrete input `"invalid"`. -/
theorem court_lookup_and_normalize_witness :
    hasCasePrefixPat (pyStripS "invalid") = false
    ∧ lookup_court (some "invalid") = none :=
  ⟨by decide, court_lookup_and_normalize.2.1 "invalid" (by decide)⟩

/-- C3 counterexample: the federal court matcher is case-sensitive (an
upper-cased `"N.D. CAL."` does not match the `"Cal."` pattern), and the
declared order is not collision-free: the bare `"Va."` entry precedes
`"W.Va."`, so text citing the W.Va. court resolves to `VA`, not `WV`. -/
theorem parse_court_state_cx :
    parse_court_state (some "N.D. CAL.") = none
    ∧ parse_court_state (some "Sup. Ct. of W.Va.") = some "VA"
    ∧ List.findIdx (fun p => p.1 == "Va.") COURT_STATE_MAP = 27
    ∧ List.findIdx (fun p => p.1 == "W.Va.") COURT_STATE_MAP = 29
    ∧ subOfS "Va." "W.Va." = true := by
  refine ⟨by decide, by decide, by decide, by decide, by decide⟩

/-- C3 amended: the federal court matcher performs case-SENSITIVE substring
matching, iterating `COURT_STATE_MAP` in its fixed declared order and
returning the state of the first matching pattern (characterized below);
but the declared order does NOT place every multi-token abbreviation before
the shorter abbreviations it contains: `"Va."` (index 27) precedes
`"W.Va."` (index 29) and is a substring of it, so `"W.Va."` text yields
`VA`. -/
theorem parse_court_state_first_match :
    (∀ t s : String, parse_court_state (some t) = some s ↔
       (t ≠ "" ∧ ∃ i, ∃ h : i < COURT_STATE_MAP.length,
          ((COURT_STATE_MAP[i]).2 = s ∧ subOfS (COURT_STATE_MAP[i]).1 t = true ∧
            ∀ j, (hj : j < COURT_STATE_MAP.length) → j < i →
              subOfS (COURT_STATE_MAP[j]).1 t = false)))
    ∧ List.findIdx (fun p => p.1 == "Va.") COURT_STATE_MAP = 27
    ∧ List.findIdx (fun p => p.1 == "W.Va.") COURT_STATE_MAP = 29
    ∧ subOfS "Va." "W.Va." = true
    ∧ parse_court_state (some "Supreme Court of W.Va.") = some "VA" := by
  refine ⟨?_, by decide, by decide, by decide, by decide⟩
  intro t s
  rw [parse_court_state]
  by_cases ht : t = ""
  · rw [if_pos ht]
    simp [ht]
  · rw [if_neg ht]
    rw [courtLoop_eq_some_iff]
    simp [ht]

/-- Witness for `parse_court_state_first_match`: the characterization
applied at `"E.D. Pa."` / `"PA"`. -/
theorem parse_court_state_first_match_witness :
    ("E.D. Pa." : String) ≠ "" ∧ ∃ i, ∃ h : i < COURT_STATE_MAP.length,
      ((COURT_STATE_MAP[i]).2 = "PA" ∧ subOfS (COURT_STATE_MAP[i]).1 "E.D. Pa." = true ∧
        ∀ j, (hj : j < COURT_STATE_MAP.length) → j < i →
          subOfS (COURT_STATE_MAP[j]).1 "E.D. Pa." = false) :=
  (parse_court_state_first_match.1 "E.D. Pa." "PA").mp (by decide)

/-- The sheet-default / dealer-state fallback never labels its result with
the TRAFFICKING method. -/
theorem sheet_default_method_ne (r : Row) (sheet_name : String) :
    (sheet_default r sheet_name).2.2 ≠ "TRAFFICKING" := by
  rw [sheet_default]
  split
  · simp
  · split
    · simp
    · split
      · split
        · simp
        · simp
      · simp

/-- C5: the trafficking-flow extractor uses the destination of the flow as
the jurisdiction state — `"AK-->CA"` alone classifies as `CA` with method
`TRAFFICKING`; whenever the method is `TRAFFICKING` the state equals the
parsed destination and that destination is not `SWB`; and for an `SWB`
destination the state is left unset (method `UNKNOWN` here) while the
`is_southwest_border` flag of the transformed row is set. -/
theorem trafficking_destination_sets_state :
    get_jurisdiction [("Case subject", some "AK-->CA")] "Other"
      = (some "CA", none, "TRAFFICKING")
    ∧ (∀ (r : Row) (sheet_name : String),
        (get_jurisdiction r sheet_name).2.2 = "TRAFFICKING" →
          ∃ o d, case_subject_flow r = some (o, d) ∧ d ≠ "SWB" ∧
            (get_jurisdiction r sheet_name).1 = some d)
    ∧ (transform_row [("FFL", some "Acme"), ("Case subject", some "TX->SWB")] "Other" 2).map
        (fun rec => (rec.jurisdiction_state, rec.jurisdiction_method, rec.is_southwest_border))
        = some (none, "UNKNOWN", true) := by
  refine ⟨by decide, ?_, by decide⟩
  intro r sheet_name h
  rw [get_jurisdiction] at h ⊢
  split at h
  · simp at h
  · split at h
    · simp at h
    · split at h
      · rename_i f h3
        split at h
        · rename_i hswb
          refine ⟨f.1, f.2, ?_, hswb, ?_⟩
          · rw [h3]
          · rw [if_pos hswb]
        · exact absurd h (sheet_default_method_ne r sheet_name)
      · exact absurd h (sheet_default_method_ne r sheet_name)

/-- Witness for `trafficking_destination_sets_state`: the general
destination property applied to the concrete `"AK-->CA"` row. -/
theorem trafficking_destination_sets_state_witness :
    ∃ o d, case_subject_flow [("Case subject", some "AK-->CA")] = some (o, d)
      ∧ d ≠ "SWB"
      ∧ (get_jurisdiction [("Case subject", some "AK-->CA")] "Other").1 = some d :=
  trafficking_destination_sets_state.2.1 [("Case subject", some "AK-->CA")] "Other" (by decide)

/-- C10: on every input record, the DE-pipeline classifier populates all
six output fields: state is always `DE`, city is the record's
`jurisdiction_city` (falling back to `Wilmington` when it is null or
empty) and never empty, the ZIP is one of the four Wilmington ZIP codes,
the court falls back to `Delaware Superior Court` when the case-number
lookup fails and is never empty, the PD is derived from the city, and the
reasoning string is never empty. -/
theorem classify_record_always_populated (r : GRecord) :
    (classify_record r).state = "DE"
    ∧ (classify_record r).city = (match r.jurisdiction_city with
        | some c => if c = "" then "Wilmington" else c
        | none => "Wilmington")
    ∧ (classify_record r).city ≠ ""
    ∧ (classify_record r).zip_code ∈ (["19801", "19802", "19805", "19806"] : List String)
    ∧ (lookup_court r.case_number = none →
        (classify_record r).court = "Delaware Superior Court")
    ∧ (classify_record r).court ≠ ""
    ∧ (classify_record r).pd = (classify_record r).city ++ " Police Department"
    ∧ (classify_record r).reasoning ≠ "" := by
  obtain ⟨jc, cs, cn⟩ := r
  refine ⟨rfl, rfl, ?_, ?_, ?_, ?_, rfl, ?_⟩
  · cases jc with
    | none =>
      show ("Wilmington" : String) ≠ ""
      decide
    | some c =>
      show (if c = "" then "Wilmington" else c) ≠ ""
      by_cases hc : c = ""
      · rw [if_pos hc]; decide
      · rw [if_neg hc]; exact hc
  · exact infer_zip_mem cs _
  · intro h
    simp only [classify_record]
    split
    · rename_i c heq
      rw [h] at heq
      cases heq
    · rfl
  · simp only [classify_record]
    split
    · rename_i c heq
      have hm := lookup_court_mem heq
      simp [COURT_LOOKUP] at hm
      rcases hm with h1 | h1 | h1 | h1 <;> (subst h1; simp)
    · simp
  · simp only [classify_record]
    apply append_ne_empty_of_left
    apply append_ne_empty_of_left
    apply append_ne_empty_of_left
    apply append_ne_empty_of_left
    apply append_ne_empty_of_left
    apply append_ne_empty_of_left
    apply append_ne_empty_of_left
    apply append_ne_empty_of_left
    decide

/-- Witness for `classify_record_always_populated`: the court default
applied to a record whose case number fails the lookup. -/
theorem classify_record_always_populated_witness :
    lookup_court (some "zz") = none
    ∧ (classify_record ⟨none, none, some "zz"⟩).court = "Delaware Superior Court" :=
  ⟨by decide,
    (classify_record_always_populated ⟨none, none, some "zz"⟩).2.2.2.2.1 (by decide)⟩
